import Mathlib

/-!
Shallow embedding of the so_vits_svc_5_server pipeline orchestrator
(src/main.py and src/version_determinator.py).

Filesystem state is modelled as a list of existing file paths; directory
listings are passed explicitly as lists of file names; each external
subprocess launch is recorded in an explicit trace, and its exit status is
an integer that the orchestrator may or may not consult, exactly as the
source does. External collaborators from the hay_say_common package
(character_dir lookup, audio cache, clean_up, construct_full_error_message)
are not part of this repository; where their behaviour matters they are
modelled from the spec and marked as such.
-/

namespace Svc5

/-- Embeds Python str.startswith, on the character lists of the strings. -/
def str_startswith (s p : String) : Bool := p.data.isPrefixOf s.data

/-- Embeds Python str.endswith, on the character lists of the strings. -/
def str_endswith (s p : String) : Bool := p.data.isSuffixOf s.data

/-- Embeds Python os.path.join on two components: an absolute second
component discards the first; otherwise the two are joined with a single
slash unless the first already ends in one (or is empty). -/
def os_path_join (a b : String) : String :=
  if str_startswith b "/" then b
  else if a = "" ∨ str_endswith a "/" then a ++ b
  else a ++ "/" ++ b

/-- Modelled from the spec: hsc.ROOT_DIR, the absolute root directory
provided by the external hay_say_common collaborator (the hay_say root). -/
def ROOT_DIR : String := "/root/hay_say"

/-- Embeds Svc5Pipeline.ARCHITECTURE_NAME. -/
def ARCHITECTURE_NAME : String := "so_vits_svc_5"

/-- Embeds Svc5Pipeline.PTH_FILENAME. -/
def PTH_FILENAME : String := "sovits5.0.pth"

/-- Embeds Svc5Pipeline.PIT_OUTPUT_FILENAME. -/
def PIT_OUTPUT_FILENAME : String := "svc_tmp.pit.csv"

/-- Embeds Svc5Pipeline.PPG_OUTPUT_FILENAME. -/
def PPG_OUTPUT_FILENAME : String := "svc_tmp.ppg.npy"

/-- Embeds Svc5Pipeline.VEC_OUTPUT_FILENAME. -/
def VEC_OUTPUT_FILENAME : String := "svc_tmp.vec.npy"

/-- Embeds Svc5Pipeline.TEMP_FILE_EXTENSION. -/
def TEMP_FILE_EXTENSION : String := ".flac"

/-- Embeds Svc5Pipeline.VERSION_CONSTANTS: for each known version number,
the value at DIRECTORY_KEY (the per-version executable directory name) and
the value at EXECUTE_HUBERT_KEY (whether the hidden-unit stage runs). -/
def VERSION_CONSTANTS : List (Int × String × Bool) :=
  [(1, "so_vits_svc_5_v1", false), (2, "so_vits_svc_5_v2", true)]

/-- Embeds the attributes an Svc5Pipeline object carries after __init__
(class attributes that depend on the version, plus the per-version paths
computed in the constructor body). -/
structure Svc5Pipeline where
  version_number : Int
  DIR_NAME : String
  EXECUTE_HUBERT : Bool
  ARCHITECTURE_ROOT : String
  OUTPUT_PATH : String
  BASE_CONFIGURATION_FILE : String
  SVC_EXPORT_SCRIPT_PATH : String
  CONTENT_VECTOR_EXTRACTION_SCRIPT_PATH : String
  PITCH_EXTRACTION_SCRIPT : String
  HIDDEN_UNIT_EXTRACTION_SCRIPT_PATH : String
  INFERENCE_SCRIPT_PATH : String
deriving Repr, DecidableEq

/-- Embeds Svc5Pipeline.__init__ : a version number that is not a key of
VERSION_CONSTANTS raises (the source even trips a TypeError while building
the message, but it raises either way); a known version number yields the
object with its per-version attributes. -/
def Svc5Pipeline.init (version_number : Int) : Except String Svc5Pipeline :=
  match VERSION_CONSTANTS.lookup version_number with
  | none => Except.error "Unknown so-vits-svc 5 version"
  | some (dir_name, execute_hubert) =>
      let arch_root := os_path_join ROOT_DIR dir_name
      Except.ok
        { version_number := version_number
          DIR_NAME := dir_name
          EXECUTE_HUBERT := execute_hubert
          ARCHITECTURE_ROOT := arch_root
          OUTPUT_PATH := os_path_join arch_root "svc_out.wav"
          BASE_CONFIGURATION_FILE :=
            os_path_join (os_path_join arch_root "configs") "base.yaml"
          SVC_EXPORT_SCRIPT_PATH := os_path_join arch_root "svc_export.py"
          CONTENT_VECTOR_EXTRACTION_SCRIPT_PATH :=
            os_path_join (os_path_join arch_root "whisper") "inference.py"
          PITCH_EXTRACTION_SCRIPT :=
            os_path_join (os_path_join arch_root "pitch") "inference.py"
          HIDDEN_UNIT_EXTRACTION_SCRIPT_PATH :=
            os_path_join (os_path_join arch_root "hubert") "inference.py"
          INFERENCE_SCRIPT_PATH := os_path_join arch_root "svc_inference.py" }

/-- The pipeline object Svc5Pipeline(1) evaluates to. -/
def pipeline_v1 : Svc5Pipeline :=
  { version_number := 1
    DIR_NAME := "so_vits_svc_5_v1"
    EXECUTE_HUBERT := false
    ARCHITECTURE_ROOT := "/root/hay_say/so_vits_svc_5_v1"
    OUTPUT_PATH := "/root/hay_say/so_vits_svc_5_v1/svc_out.wav"
    BASE_CONFIGURATION_FILE := "/root/hay_say/so_vits_svc_5_v1/configs/base.yaml"
    SVC_EXPORT_SCRIPT_PATH := "/root/hay_say/so_vits_svc_5_v1/svc_export.py"
    CONTENT_VECTOR_EXTRACTION_SCRIPT_PATH := "/root/hay_say/so_vits_svc_5_v1/whisper/inference.py"
    PITCH_EXTRACTION_SCRIPT := "/root/hay_say/so_vits_svc_5_v1/pitch/inference.py"
    HIDDEN_UNIT_EXTRACTION_SCRIPT_PATH := "/root/hay_say/so_vits_svc_5_v1/hubert/inference.py"
    INFERENCE_SCRIPT_PATH := "/root/hay_say/so_vits_svc_5_v1/svc_inference.py" }

/-- The pipeline object Svc5Pipeline(2) evaluates to. -/
def pipeline_v2 : Svc5Pipeline :=
  { version_number := 2
    DIR_NAME := "so_vits_svc_5_v2"
    EXECUTE_HUBERT := true
    ARCHITECTURE_ROOT := "/root/hay_say/so_vits_svc_5_v2"
    OUTPUT_PATH := "/root/hay_say/so_vits_svc_5_v2/svc_out.wav"
    BASE_CONFIGURATION_FILE := "/root/hay_say/so_vits_svc_5_v2/configs/base.yaml"
    SVC_EXPORT_SCRIPT_PATH := "/root/hay_say/so_vits_svc_5_v2/svc_export.py"
    CONTENT_VECTOR_EXTRACTION_SCRIPT_PATH := "/root/hay_say/so_vits_svc_5_v2/whisper/inference.py"
    PITCH_EXTRACTION_SCRIPT := "/root/hay_say/so_vits_svc_5_v2/pitch/inference.py"
    HIDDEN_UNIT_EXTRACTION_SCRIPT_PATH := "/root/hay_say/so_vits_svc_5_v2/hubert/inference.py"
    INFERENCE_SCRIPT_PATH := "/root/hay_say/so_vits_svc_5_v2/svc_inference.py" }

theorem init_one : Svc5Pipeline.init 1 = Except.ok pipeline_v1 := by rfl

theorem init_two : Svc5Pipeline.init 2 = Except.ok pipeline_v2 := by rfl

/-- Svc5Pipeline.init succeeds exactly on version numbers 1 and 2, yielding
the corresponding objects. -/
theorem init_ok_iff (v : Int) (p : Svc5Pipeline) :
    Svc5Pipeline.init v = Except.ok p ↔
      (v = 1 ∧ p = pipeline_v1) ∨ (v = 2 ∧ p = pipeline_v2) := by
  constructor
  · intro h
    by_cases h1 : v = 1
    · subst h1
      rw [init_one] at h
      exact Or.inl ⟨rfl, (Except.ok.injEq _ _).mp h.symm⟩
    · by_cases h2 : v = 2
      · subst h2
        rw [init_two] at h
        exact Or.inr ⟨rfl, (Except.ok.injEq _ _).mp h.symm⟩
      · exfalso
        simp only [Svc5Pipeline.init, VERSION_CONSTANTS, List.lookup] at h
        rw [show (v == 1) = false by simpa using h1,
          show (v == 2) = false by simpa using h2] at h
        exact Except.noConfusion h
  · rintro (⟨hv, hp⟩ | ⟨hv, hp⟩) <;> subst hv <;> subst hp
    · exact init_one
    · exact init_two

/-- Embeds Svc5Pipeline.get_config_filename: the os.listdir result for the
character directory is passed in as a list of file names. Zero files ending
in ".yaml" yield the built-in BASE_CONFIGURATION_FILE, more than one raises
the ambiguity message naming the directory, exactly one yields that name. -/
def get_config_filename (p : Svc5Pipeline) (character_dir : String)
    (listing : List String) : Except String String :=
  let potential_names := listing.filter (fun file => str_endswith file ".yaml")
  if potential_names.length = 0 then
    Except.ok p.BASE_CONFIGURATION_FILE
  else if potential_names.length > 1 then
    Except.error ("Too many config files found! Expected only one file with extension \".yaml\" in "
      ++ character_dir)
  else
    Except.ok (potential_names.headD "")

/-- Embeds Svc5Pipeline.get_config_path; the hsc.character_dir collaborator
lookup is abstracted into the character_dir argument. -/
def get_config_path (p : Svc5Pipeline) (character_dir : String)
    (listing : List String) : Except String String :=
  (get_config_filename p character_dir listing).map
    (fun config_filename => os_path_join character_dir config_filename)

/-- Embeds Svc5Pipeline.get_checkpoint_filename: requires exactly one file
of the listing ending in ".pt"; zero raises the missing-checkpoint message
and several raise the ambiguity message, both naming the directory. -/
def get_checkpoint_filename (character_dir : String) (listing : List String) :
    Except String String :=
  let potential_names := listing.filter (fun file => str_endswith file ".pt")
  if potential_names.length = 0 then
    Except.error ("Checkpoint file was not found! Expected a file with extension \".pt\" in "
      ++ character_dir)
  else if potential_names.length > 1 then
    Except.error ("Too many checkpoint files found! Expected only one file with extension \".pt\" in "
      ++ character_dir)
  else
    Except.ok (potential_names.headD "")

/-- Embeds Svc5Pipeline.get_checkpoint_path. -/
def get_checkpoint_path (character_dir : String) (listing : List String) :
    Except String String :=
  (get_checkpoint_filename character_dir listing).map
    (fun checkpoint_filename => os_path_join character_dir checkpoint_filename)

/-- Embeds Svc5Pipeline.get_spk_filename: requires exactly one file of the
singer subdirectory listing ending in ".spk.npy". -/
def get_spk_filename (singer_dir : String) (listing : List String) :
    Except String String :=
  let potential_names := listing.filter (fun file => str_endswith file ".spk.npy")
  if potential_names.length = 0 then
    Except.error ("Speaker file was not found! Expected a file with extension \".spk.npy\" in "
      ++ singer_dir)
  else if potential_names.length > 1 then
    Except.error ("Too many speaker files found! Expected only one file with extension \".spk.npy\" in "
      ++ singer_dir)
  else
    Except.ok (potential_names.headD "")

/-- Embeds Svc5Pipeline.get_spk_path: the speaker file is sought in the
fixed singer subdirectory of the character directory. -/
def get_spk_path (character_dir : String) (singer_listing : List String) :
    Except String String :=
  let singer_dir := os_path_join character_dir "singer"
  (get_spk_filename singer_dir singer_listing).map
    (fun spk_filename => os_path_join singer_dir spk_filename)

/-- Embeds Svc5Pipeline.get_pth_path. -/
def get_pth_path (character_dir : String) : String :=
  os_path_join character_dir PTH_FILENAME

/-- Embeds the observable part of a torch checkpoint: the shape of the
tensor checkpoint_dict at key model_g, key enc_p.pre.weight, as a list of
dimensions. -/
structure Checkpoint where
  enc_p_pre_weight_shape : List Nat
deriving Repr, DecidableEq

/-- Embeds version_determinator.main: the string the subprocess prints to
its standard output (with no trailing newline) for a checkpoint that
deserializes and contains the classifying tensor. -/
def determinator_stdout (ckpt : Checkpoint) : String :=
  if ckpt.enc_p_pre_weight_shape.getD 1 0 = 1024 then "1" else "2"

/-- Embeds the numeric value of one decimal digit character, as int() reads
it; none for a non-digit. -/
def digit_val (c : Char) : Option Nat :=
  if 48 ≤ c.toNat ∧ c.toNat ≤ 57 then some (c.toNat - 48) else none

/-- Embeds the digit-run parse behind the Python int constructor. -/
def py_int_digits : List Char → Option Nat
  | [] => none
  | cs => cs.foldl (fun acc c =>
      match acc, digit_val c with
      | some a, some d => some (a * 10 + d)
      | _, _ => none) (some 0)

/-- Embeds the Python int constructor applied to a decoded string (an
optional leading minus then decimal digits; anything else raises
ValueError), as determine_version applies it to the detection subprocess
output. -/
def py_int (s : String) : Except String Int :=
  match s.data with
  | [] => Except.error ("invalid literal for int() with base 10: " ++ s)
  | '-' :: rest =>
      match py_int_digits rest with
      | some n => Except.ok (-(n : Int))
      | none => Except.error ("invalid literal for int() with base 10: " ++ s)
  | _ =>
      match py_int_digits s.data with
      | some n => Except.ok ((n : Int))
      | none => Except.error ("invalid literal for int() with base 10: " ++ s)

/-- Embeds Svc5Pipeline.determine_version, together with a count of the
subprocesses it launches: checkpoint resolution runs first and a raise
there means the detection subprocess is never launched; otherwise one
subprocess runs, its standard output is determinator_stdout of the
checkpoint stored at the resolved path, and the orchestrator parses that
output with int. -/
def determine_version (character_dir : String) (listing : List String)
    (ckpt : Checkpoint) : Except String Int × Nat :=
  match get_checkpoint_path character_dir listing with
  | Except.error e => (Except.error e, 0)
  | Except.ok _ => (py_int (determinator_stdout ckpt), 1)

/-- Embeds Svc5Pipeline.create_from_character, with the same subprocess
count as determine_version. -/
def create_from_character (character_dir : String) (listing : List String)
    (ckpt : Checkpoint) : Except String Svc5Pipeline × Nat :=
  match determine_version character_dir listing ckpt with
  | (Except.error e, n) => (Except.error e, n)
  | (Except.ok version_number, n) => (Svc5Pipeline.init version_number, n)

/-- The external tools the orchestrator launches as subprocesses during
execute_program. -/
inductive Stage
  | svcExport
  | contentVector
  | pitchExtraction
  | hiddenUnits
  | synthesis
deriving Repr, DecidableEq

/-- Embeds subprocess.run as the source calls it (without a check flag):
launching a stage appends it to the trace together with the exit status its
subprocess will return; no exit status makes subprocess.run raise, and the
returned status is recorded in the trace whether or not the caller looks at
it (the source discards it). -/
def subprocess_run (trace : List (Stage × Int)) (stage : Stage)
    (exit_code : Int) : List (Stage × Int) :=
  trace ++ [(stage, exit_code)]

/-- Result of one call to export_pth_file_if_needed: the raised message if
any, the filesystem afterwards, and the subprocesses launched. -/
structure ExportResult where
  err : Option String
  fs : List String
  trace : List (Stage × Int)
deriving Repr, DecidableEq

/-- Embeds Svc5Pipeline.export_pth_file_if_needed over a filesystem given
as the list of existing paths. When the derived pth artifact is already in
the character directory nothing happens; otherwise the argument list is
built (raising on config or checkpoint resolution failure before any
subprocess runs), the export subprocess runs, and shutil.copyfile copies
the produced artifact into the character directory. The export tool itself
is outside this repository; per the spec its successful exit leaves
PTH_FILENAME in the architecture root, and copyfile raises when that source
file is absent. -/
def export_pth_file_if_needed (p : Svc5Pipeline) (character_dir : String)
    (listing : List String) (fs : List String) (exit_code : Stage → Int)
    (trace : List (Stage × Int)) : ExportResult :=
  let desired_pth_path := os_path_join character_dir PTH_FILENAME
  if fs.contains desired_pth_path then
    ⟨none, fs, trace⟩
  else
    match get_config_path p character_dir listing with
    | Except.error e => ⟨some e, fs, trace⟩
    | Except.ok _config =>
      match get_checkpoint_path character_dir listing with
      | Except.error e => ⟨some e, fs, trace⟩
      | Except.ok _checkpoint =>
        let trace := subprocess_run trace Stage.svcExport (exit_code Stage.svcExport)
        let current_pth_path := os_path_join p.ARCHITECTURE_ROOT PTH_FILENAME
        let fs := if exit_code Stage.svcExport = 0 then current_pth_path :: fs else fs
        if fs.contains current_pth_path then
          ⟨none, desired_pth_path :: fs, trace⟩
        else
          ⟨some ("FileNotFoundError: " ++ current_pth_path), fs, trace⟩

/-- Embeds the Python list-comprehension filter over the argument list of
Svc5Pipeline.infer: None entries and falsy (empty) strings are dropped. -/
def py_truthy_filter (arguments : List (Option String)) : List String :=
  arguments.filterMap (fun argument =>
    match argument with
    | none => none
    | some s => if s = "" then none else some s)

/-- Embeds the argument list Svc5Pipeline.infer builds for the synthesis
subprocess: the vec entries are appended only for version_number 2, with a
pair of None placeholders (filtered out) otherwise. -/
def infer_arguments (p : Svc5Pipeline) (config_path pth_path spk_path : String)
    (input_filename_sans_ext : String) (pitch_shift : Int) (temp_dir : String) :
    List String :=
  py_truthy_filter
    ([some "--config", some config_path,
      some "--model", some pth_path,
      some "--spk", some spk_path,
      some "--wave", some (os_path_join temp_dir (input_filename_sans_ext ++ TEMP_FILE_EXTENSION)),
      some "--ppg", some (os_path_join temp_dir PPG_OUTPUT_FILENAME),
      some "--pit", some (os_path_join temp_dir PIT_OUTPUT_FILENAME),
      some "--shift", some (toString pitch_shift)] ++
      (if p.version_number = 2 then
        [some "--vec", some (os_path_join temp_dir VEC_OUTPUT_FILENAME)]
      else [none, none]))

/-- Embeds Svc5Pipeline.infer: path resolution for config, model and
speaker files may raise; otherwise the synthesis subprocess is launched
with the built argument list. Returns the argument list and the trace. -/
def infer (p : Svc5Pipeline) (character_dir : String)
    (listing singer_listing : List String) (input_filename_sans_ext : String)
    (pitch_shift : Int) (temp_dir : String) (exit_code : Stage → Int)
    (trace : List (Stage × Int)) :
    Except String (List String × List (Stage × Int)) := do
  let config_path ← get_config_path p character_dir listing
  let pth_path := get_pth_path character_dir
  let spk_path ← get_spk_path character_dir singer_listing
  let arguments := infer_arguments p config_path pth_path spk_path
    input_filename_sans_ext pitch_shift temp_dir
  Except.ok (arguments, subprocess_run trace Stage.synthesis (exit_code Stage.synthesis))

/-- Result of running execute_program: the first raised message if any, the
global filesystem afterwards, the files the stages wrote into the scratch
directory, the argument list handed to the synthesis subprocess (empty when
synthesis was never reached), and the trace of launched subprocesses. -/
structure ProgResult where
  err : Option String
  fs : List String
  scratch : List String
  infer_args : List String
  trace : List (Stage × Int)
deriving Repr, DecidableEq

/-- Embeds Svc5Pipeline.execute_program: export-if-needed, content-vector
extraction, pitch extraction, hidden-unit extraction only when
EXECUTE_HUBERT, then synthesis. Per the spec each extraction tool's
successful exit leaves its output file in the scratch directory, and a
successful synthesis exit leaves OUTPUT_PATH in the architecture root; the
orchestrator itself never consults the recorded exit statuses. -/
def execute_program (p : Svc5Pipeline) (character_dir : String)
    (listing singer_listing : List String) (fs scratch : List String)
    (input_filename_sans_ext : String) (pitch_shift : Int) (temp_dir : String)
    (exit_code : Stage → Int) : ProgResult :=
  match export_pth_file_if_needed p character_dir listing fs exit_code [] with
  | ⟨some e, fs1, trace⟩ => ⟨some e, fs1, scratch, [], trace⟩
  | ⟨none, fs1, trace⟩ =>
    let trace := subprocess_run trace Stage.contentVector (exit_code Stage.contentVector)
    let scratch := if exit_code Stage.contentVector = 0 then
        scratch ++ [os_path_join temp_dir PPG_OUTPUT_FILENAME] else scratch
    let trace := subprocess_run trace Stage.pitchExtraction (exit_code Stage.pitchExtraction)
    let scratch := if exit_code Stage.pitchExtraction = 0 then
        scratch ++ [os_path_join temp_dir PIT_OUTPUT_FILENAME] else scratch
    let trace := if p.EXECUTE_HUBERT then
        subprocess_run trace Stage.hiddenUnits (exit_code Stage.hiddenUnits)
      else trace
    let scratch := if p.EXECUTE_HUBERT ∧ exit_code Stage.hiddenUnits = 0 then
        scratch ++ [os_path_join temp_dir VEC_OUTPUT_FILENAME] else scratch
    match infer p character_dir listing singer_listing input_filename_sans_ext
        pitch_shift temp_dir exit_code trace with
    | Except.error e => ⟨some e, fs1, scratch, [], trace⟩
    | Except.ok (args, trace) =>
      let fs2 := if exit_code Stage.synthesis = 0 then p.OUTPUT_PATH :: fs1 else fs1
      ⟨none, fs2, scratch, args, trace⟩

/-- Result of one run of execute_pipeline, after the TemporaryDirectory
with-block has exited: the raised message if any, the global filesystem,
and the files remaining in the run's scratch directory. -/
structure RunResult where
  err : Option String
  fs : List String
  scratch : List String
deriving Repr, DecidableEq

/-- Embeds Svc5Pipeline.execute_pipeline: a TemporaryDirectory is opened as
the run's private scratch directory; copy_input_audio writes the input
audio into it (raising a wrapped message when the soundfile write fails),
execute_program runs the stages, and copy_output reads OUTPUT_PATH back
into the audio cache (hsc.read_audio raises when that file is absent).
Whether the body returns or raises, TemporaryDirectory removes the scratch
directory and every file inside it on exit of the with-block. -/
def execute_pipeline (p : Svc5Pipeline) (character_dir : String)
    (listing singer_listing : List String) (fs : List String)
    (input_filename_sans_ext : String) (pitch_shift : Int) (temp_dir : String)
    (exit_code : Stage → Int) (copy_input_ok : Bool) : RunResult :=
  if ¬ copy_input_ok then
    ⟨some "Unable to copy file from Hay Say's audio cache to so-vits-svc 5's input directory.",
      fs, []⟩
  else
    let scratch := [os_path_join temp_dir (input_filename_sans_ext ++ TEMP_FILE_EXTENSION)]
    let r := execute_program p character_dir listing singer_listing fs scratch
      input_filename_sans_ext pitch_shift temp_dir exit_code
    match r.err with
    | some e => ⟨some e, r.fs, []⟩
    | none =>
      if r.fs.contains p.OUTPUT_PATH then ⟨none, r.fs, []⟩
      else ⟨some ("read_audio failed: " ++ p.OUTPUT_PATH ++ " is absent"), r.fs, []⟩

/-- Embeds get_temp_files from register_methods: for every key of
VERSION_CONSTANTS an Svc5Pipeline is built and its OUTPUT_PATH collected,
then paths that are not existing files are removed without error. -/
def get_temp_files (fs : List String) : List String :=
  let files_to_clean := VERSION_CONSTANTS.foldl
    (fun acc kv =>
      match Svc5Pipeline.init kv.1 with
      | Except.ok svc5_pipeline => acc ++ [svc5_pipeline.OUTPUT_PATH]
      | Except.error _ => acc) []
  files_to_clean.filter (fun file => fs.contains file)

/-- Modelled from the spec: the external collaborator hsc.clean_up removes
each of the given files from the filesystem. -/
def clean_up (fs : List String) (files : List String) : List String :=
  fs.filter (fun f => ¬ files.contains f)

/-- Modelled from the spec (sections 4.5 and 6): the external collaborator
hsc.construct_full_error_message builds the textual error report by
capturing the textual content of each given still-present file; the report
is returned here as the list of captured pieces, in order. The content
function maps an existing path to its textual content. -/
def construct_full_error_message (content : String → String)
    (temp_files : List String) : List String :=
  temp_files.map content

/-- Embeds Python base64 alphabet lookup. -/
def b64_char (n : Nat) : Char :=
  "ABCDEFGHIJKLMNOPQRSTUVWXYZabcdefghijklmnopqrstuvwxyz0123456789+/".data.getD n 'A'

/-- Embeds base64.b64encode on a byte list, the bytes as Nat below 256,
followed by decode to a string: standard base64 with trailing padding. -/
def b64encode : List Nat → String
  | [] => ""
  | [a] =>
      String.mk [b64_char (a / 4), b64_char (a % 4 * 16), '=', '=']
  | [a, b] =>
      String.mk [b64_char (a / 4), b64_char (a % 4 * 16 + b / 16),
        b64_char (b % 16 * 4), '=']
  | a :: b :: c :: rest =>
      String.mk [b64_char (a / 4), b64_char (a % 4 * 16 + b / 16),
        b64_char (b % 16 * 4 + c / 64), b64_char (c % 64)] ++ b64encode rest

/-- Embeds the UTF-8 encoding of one character, as bytes(s, "utf-8") uses. -/
def utf8_encode_char (c : Char) : List Nat :=
  let n := c.toNat
  if n < 128 then [n]
  else if n < 2048 then [192 + n / 64, 128 + n % 64]
  else if n < 65536 then [224 + n / 4096, 128 + n / 64 % 64, 128 + n % 64]
  else [240 + n / 262144, 128 + n / 4096 % 64, 128 + n / 64 % 64, 128 + n % 64]

/-- Embeds bytes(s, "utf-8") as a byte list. -/
def utf8_encode (s : String) : List Nat :=
  s.data.foldr (fun c acc => utf8_encode_char c ++ acc) []

/-- How one request behaves, abstracting what the handler's try block
encounters: a schema violation raising BadInputException with a given
traceback text, or a pipeline run with given stage exit codes. -/
inductive RequestBehavior
  | badInput (tb : String)
  | pipeline (exit_code : Stage → Int) (copy_input_ok : Bool)

/-- Result of one generate request: the final global filesystem, the files
remaining in the run's scratch directory, the HTTP status code, the JSON
response object as a field list, and the diagnostic texts captured into the
error report. -/
structure GenResult where
  fs : List String
  scratch : List String
  code : Nat
  response : List (String × String)
  captured : List String
deriving Repr, DecidableEq

/-- Embeds the generate request handler from register_methods: code 200 and
an empty message unless the try block raises; BadInputException yields 400
with the traceback text; any other exception yields 500 with the report
hsc.construct_full_error_message builds over get_temp_files(); on success
hsc.clean_up(get_temp_files()) runs inside the try block. The message is
base64-encoded and returned as the single "message" field of the JSON
response object. The collaborator report consumes the enumerated files
(spec section 4.5: captured then deleted). -/
def generate (p : Svc5Pipeline) (character_dir : String)
    (listing singer_listing : List String) (content : String → String)
    (fs : List String) (input_filename_sans_ext : String) (pitch_shift : Int)
    (temp_dir : String) (req : RequestBehavior) : GenResult :=
  match req with
  | RequestBehavior.badInput tb =>
      ⟨fs, [], 400, [("message", b64encode (utf8_encode tb))], []⟩
  | RequestBehavior.pipeline exit_code copy_input_ok =>
      let r := execute_pipeline p character_dir listing singer_listing fs
        input_filename_sans_ext pitch_shift temp_dir exit_code copy_input_ok
      match r.err with
      | none =>
          let fs2 := clean_up r.fs (get_temp_files r.fs)
          ⟨fs2, r.scratch, 200, [("message", b64encode (utf8_encode ""))], []⟩
      | some _ =>
          let captured := construct_full_error_message content (get_temp_files r.fs)
          let fs2 := clean_up r.fs (get_temp_files r.fs)
          ⟨fs2, r.scratch, 500,
            [("message", b64encode (utf8_encode (String.intercalate "\n" captured)))],
            captured⟩

lemma toDigitsCore_ne_nil (b : Nat) :
    ∀ (f n : Nat) (ds : List Char), ds ≠ [] → Nat.toDigitsCore b f n ds ≠ [] := by
  intro f
  induction f with
  | zero => intro n ds h; simpa [Nat.toDigitsCore] using h
  | succ f ih =>
      intro n ds h
      simp only [Nat.toDigitsCore]
      split
      · simp
      · exact ih _ _ (by simp)

lemma nat_toDigits_ne_nil (b n : Nat) : Nat.toDigits b n ≠ [] := by
  simp only [Nat.toDigits, Nat.toDigitsCore]
  split
  · simp
  · exact toDigitsCore_ne_nil b _ _ _ (by simp)

lemma nat_repr_ne_empty (n : Nat) : Nat.repr n ≠ "" := by
  simp only [Nat.repr]
  intro h
  have h2 := congrArg String.data h
  simp only [List.asString] at h2
  exact nat_toDigits_ne_nil 10 n (by simpa using h2)

lemma int_toString_ne_empty (i : Int) : toString i ≠ "" := by
  show Int.repr i ≠ ""
  cases i with
  | ofNat n => exact nat_repr_ne_empty n
  | negSucc n =>
      simp only [Int.repr]
      intro h
      have h2 := congrArg String.data h
      simp [String.data_append] at h2

lemma string_append_ne_empty (a b : String) (hb : b ≠ "") : a ++ b ≠ "" := by
  intro h
  have h2 := congrArg String.data h
  simp only [String.data_append] at h2
  rcases List.append_eq_nil.mp h2 with ⟨_, h4⟩
  exact hb (by cases b with | mk d => simp at h4; simp [h4])

lemma os_path_join_ne_empty (a b : String) (hb : b ≠ "") : os_path_join a b ≠ "" := by
  unfold os_path_join
  split
  · exact hb
  · split
    · exact string_append_ne_empty a b hb
    · exact string_append_ne_empty (a ++ "/") b hb

lemma export_trace_cases (p : Svc5Pipeline) (character_dir : String)
    (listing : List String) (fs : List String) (ec : Stage → Int) :
    (export_pth_file_if_needed p character_dir listing fs ec []).trace = [] ∨
    (export_pth_file_if_needed p character_dir listing fs ec []).trace =
      [(Stage.svcExport, ec Stage.svcExport)] := by
  by_cases hd : os_path_join character_dir PTH_FILENAME ∈ fs
  · left; simp [export_pth_file_if_needed, hd]
  · rcases hc : get_config_path p character_dir listing with e | c
    · left; simp [export_pth_file_if_needed, hd, hc]
    · rcases hk : get_checkpoint_path character_dir listing with e | k
      · left; simp [export_pth_file_if_needed, hd, hc, hk]
      · right
        simp only [export_pth_file_if_needed, hc, hk, subprocess_run, List.nil_append]
        rw [if_neg (by simpa using hd)]
        split <;> (split <;> rfl)

lemma execute_program_trace_shape (p : Svc5Pipeline) (character_dir : String)
    (listing singer_listing : List String) (fs scratch : List String)
    (inp : String) (shift : Int) (temp_dir : String) (ec : Stage → Int) :
    ((execute_program p character_dir listing singer_listing fs scratch inp shift
        temp_dir ec).trace.map Prod.fst =
      (export_pth_file_if_needed p character_dir listing fs ec []).trace.map Prod.fst ∧
      (export_pth_file_if_needed p character_dir listing fs ec []).err ≠ none) ∨
    (∃ tail, (tail = [] ∨ tail = [Stage.synthesis]) ∧
      (export_pth_file_if_needed p character_dir listing fs ec []).err = none ∧
      (execute_program p character_dir listing singer_listing fs scratch inp shift
          temp_dir ec).trace.map Prod.fst =
        (export_pth_file_if_needed p character_dir listing fs ec []).trace.map Prod.fst ++
          [Stage.contentVector, Stage.pitchExtraction] ++
          (if p.EXECUTE_HUBERT then [Stage.hiddenUnits] else []) ++ tail) := by
  rcases hres : export_pth_file_if_needed p character_dir listing fs ec [] with ⟨err, fs1, tr⟩
  cases err with
  | some e => left; simp [execute_program, hres]
  | none =>
      right
      simp only [execute_program, hres, infer, bind, Except.bind]
      cases hc : get_config_path p character_dir listing with
      | error e =>
          refine ⟨[], Or.inl rfl, by simp [hres], ?_⟩
          by_cases hH : p.EXECUTE_HUBERT <;> simp [hH, subprocess_run]
      | ok cfg =>
          cases hs : get_spk_path character_dir singer_listing with
          | error e =>
              refine ⟨[], Or.inl rfl, by simp [hres], ?_⟩
              by_cases hH : p.EXECUTE_HUBERT <;> simp [hH, subprocess_run]
          | ok spk =>
              refine ⟨[Stage.synthesis], Or.inr rfl, by simp [hres], ?_⟩
              by_cases hH : p.EXECUTE_HUBERT <;> simp [hH, subprocess_run]

lemma get_temp_files_spec (fs : List String) :
    get_temp_files fs =
      [pipeline_v1.OUTPUT_PATH, pipeline_v2.OUTPUT_PATH].filter (fun f => fs.contains f) := rfl

lemma output_not_in_cleanup (fs : List String) (x : String)
    (hx : x = pipeline_v1.OUTPUT_PATH ∨ x = pipeline_v2.OUTPUT_PATH) :
    x ∉ clean_up fs (get_temp_files fs) := by
  intro hmem
  unfold clean_up at hmem
  rw [List.mem_filter] at hmem
  obtain ⟨hfs, hnc⟩ := hmem
  have hin : x ∈ get_temp_files fs := by
    rw [get_temp_files_spec, List.mem_filter]
    refine ⟨by rcases hx with h | h <;> simp [h], by simpa using hfs⟩
  simp [hin] at hnc

lemma execute_pipeline_scratch_empty (p : Svc5Pipeline) (character_dir : String)
    (listing singer_listing : List String) (fs : List String)
    (inp : String) (shift : Int) (temp_dir : String)
    (ec : Stage → Int) (ciok : Bool) :
    (execute_pipeline p character_dir listing singer_listing fs inp shift temp_dir
      ec ciok).scratch = [] := by
  unfold execute_pipeline
  split
  · rfl
  · dsimp only
    split
    · rfl
    · split <;> rfl

/-- C1 counterexample: the spec says a stage subprocess exiting with a
nonzero status aborts the run with no remaining stage attempted. In the
code every stage runs through subprocess.run without a check flag, so in a
concrete V1 run whose pitch-extraction subprocess exits with status 1 the
synthesis stage is still launched afterwards and no exception is raised. -/
theorem C1_counterexample :
    (execute_program pipeline_v1 "/characters/c" ["model.pt"] ["voice.spk.npy"]
        ["/characters/c/sovits5.0.pth"] [] "clip" 0 "/tmp/run"
        (fun s => if s = Stage.pitchExtraction then 1 else 0)).trace =
      [(Stage.contentVector, 0), (Stage.pitchExtraction, 1), (Stage.synthesis, 0)] ∧
    (execute_program pipeline_v1 "/characters/c" ["model.pt"] ["voice.spk.npy"]
        ["/characters/c/sovits5.0.pth"] [] "clip" 0 "/tmp/run"
        (fun s => if s = Stage.pitchExtraction then 1 else 0)).err = none := by
  constructor <;> rfl

/-- C1 (amended): the orchestrator launches the stage subprocesses strictly
in sequence, blocking on each, but never consults their exit statuses: two
exit-status assignments that agree on the export stage (whose failure
surfaces only indirectly, through the copyfile of the artifact the export
tool did not produce) give the same raised-exception behaviour and the same
sequence of launched stages, so a nonzero extraction or synthesis exit
aborts nothing and every remaining stage is still attempted. -/
theorem C1_exit_status_not_consulted (p : Svc5Pipeline) (character_dir : String)
    (listing singer_listing : List String) (fs scratch : List String)
    (input_filename_sans_ext : String) (pitch_shift : Int) (temp_dir : String)
    (ec ec2 : Stage → Int) (h : ec Stage.svcExport = ec2 Stage.svcExport) :
    (execute_program p character_dir listing singer_listing fs scratch
        input_filename_sans_ext pitch_shift temp_dir ec).err =
      (execute_program p character_dir listing singer_listing fs scratch
        input_filename_sans_ext pitch_shift temp_dir ec2).err ∧
    (execute_program p character_dir listing singer_listing fs scratch
        input_filename_sans_ext pitch_shift temp_dir ec).trace.map Prod.fst =
      (execute_program p character_dir listing singer_listing fs scratch
        input_filename_sans_ext pitch_shift temp_dir ec2).trace.map Prod.fst := by
  have hex : export_pth_file_if_needed p character_dir listing fs ec [] =
      export_pth_file_if_needed p character_dir listing fs ec2 [] := by
    simp only [export_pth_file_if_needed, subprocess_run, h]
  simp only [execute_program]
  rw [hex]
  rcases hres : export_pth_file_if_needed p character_dir listing fs ec2 [] with ⟨err, fs1, tr⟩
  cases err with
  | some e => exact ⟨rfl, rfl⟩
  | none =>
      simp only [infer, bind, Except.bind]
      cases hc : get_config_path p character_dir listing with
      | error e => by_cases hH : p.EXECUTE_HUBERT <;> simp [hH, subprocess_run]
      | ok cfg =>
          cases hs : get_spk_path character_dir singer_listing with
          | error e => by_cases hH : p.EXECUTE_HUBERT <;> simp [hH, subprocess_run]
          | ok spk => by_cases hH : p.EXECUTE_HUBERT <;> simp [hH, subprocess_run]

theorem C1_exit_status_not_consulted_witness :
    ((fun (_ : Stage) => (0 : Int)) Stage.svcExport =
      (fun s => if s = Stage.pitchExtraction then (1 : Int) else 0) Stage.svcExport) ∧
    ((execute_program pipeline_v2 "/characters/c" ["model.pt", "a.yaml"] ["voice.spk.npy"]
        ["/characters/c/sovits5.0.pth"] [] "clip" 0 "/tmp/run" (fun _ => 0)).err =
      (execute_program pipeline_v2 "/characters/c" ["model.pt", "a.yaml"] ["voice.spk.npy"]
        ["/characters/c/sovits5.0.pth"] [] "clip" 0 "/tmp/run"
        (fun s => if s = Stage.pitchExtraction then 1 else 0)).err ∧
    (execute_program pipeline_v2 "/characters/c" ["model.pt", "a.yaml"] ["voice.spk.npy"]
        ["/characters/c/sovits5.0.pth"] [] "clip" 0 "/tmp/run"
        (fun _ => 0)).trace.map Prod.fst =
      (execute_program pipeline_v2 "/characters/c" ["model.pt", "a.yaml"] ["voice.spk.npy"]
        ["/characters/c/sovits5.0.pth"] [] "clip" 0 "/tmp/run"
        (fun s => if s = Stage.pitchExtraction then 1 else 0)).trace.map Prod.fst) :=
  ⟨by decide,
   C1_exit_status_not_consulted pipeline_v2 "/characters/c" ["model.pt", "a.yaml"]
     ["voice.spk.npy"] ["/characters/c/sovits5.0.pth"] [] "clip" 0 "/tmp/run"
     (fun _ => 0) (fun s => if s = Stage.pitchExtraction then 1 else 0) (by decide)⟩

/-- C2: version detection prints a single character to the subprocess
standard output: the character is 1 exactly when the classifying tensor's
second dimension is 1024 and 2 for any other value, and the orchestrator
parses that output with int, launching exactly one detection subprocess
once the checkpoint has been resolved. -/
theorem C2_version_detection (character_dir : String) (listing : List String)
    (ckpt : Checkpoint)
    (hres : (listing.filter (fun file => str_endswith file ".pt")).length = 1)
    (hdim : 1 < ckpt.enc_p_pre_weight_shape.length) :
    (determinator_stdout ckpt).length = 1 ∧
    (ckpt.enc_p_pre_weight_shape.getD 1 0 = 1024 →
      determine_version character_dir listing ckpt = (Except.ok 1, 1)) ∧
    (ckpt.enc_p_pre_weight_shape.getD 1 0 ≠ 1024 →
      determine_version character_dir listing ckpt = (Except.ok 2, 1)) := by
  have hck : get_checkpoint_path character_dir listing =
      Except.ok (os_path_join character_dir
        ((listing.filter (fun file => str_endswith file ".pt")).headD "")) := by
    simp [get_checkpoint_path, get_checkpoint_filename, hres, Except.map]
  refine ⟨?_, ?_, ?_⟩
  · unfold determinator_stdout; split <;> rfl
  · intro h1024
    have hs : determinator_stdout ckpt = "1" := by
      unfold determinator_stdout; rw [if_pos h1024]
    simp only [determine_version, hck, hs]
    rfl
  · intro hne
    have hs : determinator_stdout ckpt = "2" := by
      unfold determinator_stdout; rw [if_neg hne]
    simp only [determine_version, hck, hs]
    rfl

theorem C2_version_detection_witness :
    (["m.pt"].filter (fun file => str_endswith file ".pt")).length = 1 ∧
    1 < (Checkpoint.mk [192, 1024, 5]).enc_p_pre_weight_shape.length ∧
    determine_version "/c" ["m.pt"] (Checkpoint.mk [192, 1024, 5]) = (Except.ok 1, 1) ∧
    determine_version "/c" ["m.pt"] (Checkpoint.mk [192, 1280, 5]) = (Except.ok 2, 1) :=
  ⟨by decide, by decide,
   (C2_version_detection "/c" ["m.pt"] (Checkpoint.mk [192, 1024, 5])
     (by decide) (by decide)).2.1 (by decide),
   (C2_version_detection "/c" ["m.pt"] (Checkpoint.mk [192, 1280, 5])
     (by decide) (by decide)).2.2 (by decide)⟩

/-- C3: a V1 pipeline never launches the hidden-unit-extraction stage and
its synthesis argument list omits the hidden-unit artifact path (the None
placeholders are filtered away); a V2 pipeline always launches the
hidden-unit stage (whenever the export step did not raise first) and its
synthesis argument list ends in the vec flag and artifact path. -/
theorem C3_hidden_units_and_vec_only_v2 :
    (∀ (character_dir : String) (listing singer_listing fs scratch : List String)
        (inp : String) (shift : Int) (temp_dir : String) (ec : Stage → Int),
      Stage.hiddenUnits ∉ ((execute_program pipeline_v1 character_dir listing singer_listing
          fs scratch inp shift temp_dir ec).trace.map Prod.fst)) ∧
    (∀ (character_dir : String) (listing singer_listing fs scratch : List String)
        (inp : String) (shift : Int) (temp_dir : String) (ec : Stage → Int),
      (export_pth_file_if_needed pipeline_v2 character_dir listing fs ec []).err = none →
      Stage.hiddenUnits ∈ ((execute_program pipeline_v2 character_dir listing singer_listing
          fs scratch inp shift temp_dir ec).trace.map Prod.fst)) ∧
    (∀ (config_path pth_path spk_path inp : String) (shift : Int) (temp_dir : String),
      config_path ≠ "" → pth_path ≠ "" → spk_path ≠ "" →
      infer_arguments pipeline_v1 config_path pth_path spk_path inp shift temp_dir =
        ["--config", config_path, "--model", pth_path, "--spk", spk_path,
         "--wave", os_path_join temp_dir (inp ++ TEMP_FILE_EXTENSION),
         "--ppg", os_path_join temp_dir PPG_OUTPUT_FILENAME,
         "--pit", os_path_join temp_dir PIT_OUTPUT_FILENAME,
         "--shift", toString shift] ∧
      infer_arguments pipeline_v2 config_path pth_path spk_path inp shift temp_dir =
        ["--config", config_path, "--model", pth_path, "--spk", spk_path,
         "--wave", os_path_join temp_dir (inp ++ TEMP_FILE_EXTENSION),
         "--ppg", os_path_join temp_dir PPG_OUTPUT_FILENAME,
         "--pit", os_path_join temp_dir PIT_OUTPUT_FILENAME,
         "--shift", toString shift,
         "--vec", os_path_join temp_dir VEC_OUTPUT_FILENAME]) := by
  refine ⟨?_, ?_, ?_⟩
  · intro character_dir listing singer_listing fs scratch inp shift temp_dir ec
    have hsh := execute_program_trace_shape pipeline_v1 character_dir listing singer_listing
      fs scratch inp shift temp_dir ec
    have htr := export_trace_cases pipeline_v1 character_dir listing fs ec
    rcases hsh with ⟨heq, _⟩ | ⟨tail, htail, _, heq⟩
    · rw [heq]; rcases htr with h | h <;> rw [h] <;> simp
    · rcases htail with ht | ht <;> subst ht <;> rw [heq] <;>
        rcases htr with h | h <;> rw [h] <;> simp [pipeline_v1]
  · intro character_dir listing singer_listing fs scratch inp shift temp_dir ec hnone
    have hsh := execute_program_trace_shape pipeline_v2 character_dir listing singer_listing
      fs scratch inp shift temp_dir ec
    rcases hsh with ⟨_, hne⟩ | ⟨tail, htail, _, heq⟩
    · exact absurd hnone hne
    · rw [heq]; simp [pipeline_v2]
  · intro config_path pth_path spk_path inp shift temp_dir hcfg hpth hspk
    constructor <;>
      simp [infer_arguments, py_truthy_filter, List.filterMap, hcfg, hpth, hspk,
        pipeline_v1, pipeline_v2,
        os_path_join_ne_empty temp_dir (inp ++ TEMP_FILE_EXTENSION)
          (string_append_ne_empty inp TEMP_FILE_EXTENSION (by decide)),
        os_path_join_ne_empty temp_dir PPG_OUTPUT_FILENAME (by decide),
        os_path_join_ne_empty temp_dir PIT_OUTPUT_FILENAME (by decide),
        os_path_join_ne_empty temp_dir VEC_OUTPUT_FILENAME (by decide),
        int_toString_ne_empty shift]

theorem C3_hidden_units_and_vec_only_v2_witness :
    Stage.hiddenUnits ∉ ((execute_program pipeline_v1 "/c" ["m.pt", "a.yaml"] ["v.spk.npy"]
      ["/c/sovits5.0.pth"] [] "clip" 0 "/tmp/run" (fun _ => 0)).trace.map Prod.fst) ∧
    (export_pth_file_if_needed pipeline_v2 "/c" ["m.pt", "a.yaml"] ["/c/sovits5.0.pth"]
      (fun _ => 0) []).err = none ∧
    Stage.hiddenUnits ∈ ((execute_program pipeline_v2 "/c" ["m.pt", "a.yaml"] ["v.spk.npy"]
      ["/c/sovits5.0.pth"] [] "clip" 0 "/tmp/run" (fun _ => 0)).trace.map Prod.fst) ∧
    infer_arguments pipeline_v1 "/c/a.yaml" "/c/sovits5.0.pth" "/c/singer/v.spk.npy"
        "clip" 0 "/tmp/run" =
      ["--config", "/c/a.yaml", "--model", "/c/sovits5.0.pth",
       "--spk", "/c/singer/v.spk.npy", "--wave", "/tmp/run/clip.flac",
       "--ppg", "/tmp/run/svc_tmp.ppg.npy", "--pit", "/tmp/run/svc_tmp.pit.csv",
       "--shift", "0"] ∧
    infer_arguments pipeline_v2 "/c/a.yaml" "/c/sovits5.0.pth" "/c/singer/v.spk.npy"
        "clip" 0 "/tmp/run" =
      ["--config", "/c/a.yaml", "--model", "/c/sovits5.0.pth",
       "--spk", "/c/singer/v.spk.npy", "--wave", "/tmp/run/clip.flac",
       "--ppg", "/tmp/run/svc_tmp.ppg.npy", "--pit", "/tmp/run/svc_tmp.pit.csv",
       "--shift", "0", "--vec", "/tmp/run/svc_tmp.vec.npy"] :=
  ⟨C3_hidden_units_and_vec_only_v2.1 "/c" ["m.pt", "a.yaml"] ["v.spk.npy"]
     ["/c/sovits5.0.pth"] [] "clip" 0 "/tmp/run" (fun _ => 0),
   rfl,
   C3_hidden_units_and_vec_only_v2.2.1 "/c" ["m.pt", "a.yaml"] ["v.spk.npy"]
     ["/c/sovits5.0.pth"] [] "clip" 0 "/tmp/run" (fun _ => 0) rfl,
   (C3_hidden_units_and_vec_only_v2.2.2 "/c/a.yaml" "/c/sovits5.0.pth"
     "/c/singer/v.spk.npy" "clip" 0 "/tmp/run" (by decide) (by decide) (by decide)).1,
   (C3_hidden_units_and_vec_only_v2.2.2 "/c/a.yaml" "/c/sovits5.0.pth"
     "/c/singer/v.spk.npy" "clip" 0 "/tmp/run" (by decide) (by decide) (by decide)).2⟩

/-- C4: the export stage launches its subprocess exactly when the derived
exported artifact is absent from the character directory; a launching run
(whose export tool succeeds) copies the produced artifact into the
character directory, so running the stage again immediately afterwards
launches nothing and leaves the filesystem unchanged. -/
theorem C4_export_idempotent (p : Svc5Pipeline) (character_dir : String)
    (listing : List String) (fs : List String) (ec : Stage → Int)
    (hcfg : ∃ c, get_config_path p character_dir listing = Except.ok c)
    (hck : ∃ k, get_checkpoint_path character_dir listing = Except.ok k)
    (hexit : ec Stage.svcExport = 0) :
    ((export_pth_file_if_needed p character_dir listing fs ec []).trace ≠ [] ↔
      os_path_join character_dir PTH_FILENAME ∉ fs) ∧
    (export_pth_file_if_needed p character_dir listing fs ec []).err = none ∧
    os_path_join character_dir PTH_FILENAME ∈
      (export_pth_file_if_needed p character_dir listing fs ec []).fs ∧
    export_pth_file_if_needed p character_dir listing
        (export_pth_file_if_needed p character_dir listing fs ec []).fs ec [] =
      ⟨none, (export_pth_file_if_needed p character_dir listing fs ec []).fs, []⟩ := by
  rcases hcfg with ⟨c, hc⟩
  rcases hck with ⟨k, hk⟩
  have hr : export_pth_file_if_needed p character_dir listing fs ec [] =
      if os_path_join character_dir PTH_FILENAME ∈ fs then ⟨none, fs, []⟩
      else ⟨none, os_path_join character_dir PTH_FILENAME ::
            os_path_join p.ARCHITECTURE_ROOT PTH_FILENAME :: fs,
            [(Stage.svcExport, ec Stage.svcExport)]⟩ := by
    by_cases hd : os_path_join character_dir PTH_FILENAME ∈ fs
    · simp [export_pth_file_if_needed, hd]
    · simp [export_pth_file_if_needed, hc, hk, subprocess_run, hexit, hd]
  by_cases hd : os_path_join character_dir PTH_FILENAME ∈ fs
  · rw [hr, if_pos hd]
    refine ⟨by simpa using hd, rfl, hd, ?_⟩
    show export_pth_file_if_needed p character_dir listing fs ec [] =
      ExportResult.mk none fs []
    rw [hr, if_pos hd]
  · rw [hr, if_neg hd]
    refine ⟨by simpa using hd, rfl, by simp, ?_⟩
    simp only [export_pth_file_if_needed]
    rw [if_pos (by simp)]

theorem C4_export_idempotent_witness :
    ((export_pth_file_if_needed pipeline_v1 "/c" ["m.pt", "a.yaml"] [] (fun _ => 0) []).trace
        ≠ [] ↔ os_path_join "/c" PTH_FILENAME ∉ ([] : List String)) ∧
    (export_pth_file_if_needed pipeline_v1 "/c" ["m.pt", "a.yaml"] [] (fun _ => 0) []).err
      = none ∧
    os_path_join "/c" PTH_FILENAME ∈
      (export_pth_file_if_needed pipeline_v1 "/c" ["m.pt", "a.yaml"] [] (fun _ => 0) []).fs ∧
    export_pth_file_if_needed pipeline_v1 "/c" ["m.pt", "a.yaml"]
        (export_pth_file_if_needed pipeline_v1 "/c" ["m.pt", "a.yaml"] [] (fun _ => 0) []).fs
        (fun _ => 0) [] =
      ⟨none,
       (export_pth_file_if_needed pipeline_v1 "/c" ["m.pt", "a.yaml"] [] (fun _ => 0) []).fs,
       []⟩ :=
  C4_export_idempotent pipeline_v1 "/c" ["m.pt", "a.yaml"] [] (fun _ => 0)
    ⟨"/c/a.yaml", rfl⟩ ⟨"/c/m.pt", rfl⟩ rfl

/-- C5: configuration resolution returns the built-in default configuration
path when the character directory holds no file with the configuration
suffix, the single matching file's path inside the character directory when
it holds exactly one, and raises the ambiguity message naming the directory
when it holds two or more. -/
theorem C5_config_resolution (v : Int) (p : Svc5Pipeline) (character_dir : String)
    (listing : List String) (h : Svc5Pipeline.init v = Except.ok p) :
    ((listing.filter (fun file => str_endswith file ".yaml")).length = 0 →
      get_config_path p character_dir listing = Except.ok p.BASE_CONFIGURATION_FILE) ∧
    (∀ f, listing.filter (fun file => str_endswith file ".yaml") = [f] →
      get_config_path p character_dir listing = Except.ok (os_path_join character_dir f)) ∧
    (2 ≤ (listing.filter (fun file => str_endswith file ".yaml")).length →
      get_config_path p character_dir listing = Except.error
        ("Too many config files found! Expected only one file with extension \".yaml\" in "
          ++ character_dir)) := by
  refine ⟨?_, ?_, ?_⟩
  · intro h0
    have hb : os_path_join character_dir p.BASE_CONFIGURATION_FILE =
        p.BASE_CONFIGURATION_FILE := by
      rcases (init_ok_iff v p).mp h with ⟨_, hp⟩ | ⟨_, hp⟩ <;> subst hp <;>
        (unfold os_path_join; rw [if_pos (by decide)])
    simp [get_config_path, get_config_filename, h0, Except.map, hb]
  · intro f hf
    simp [get_config_path, get_config_filename, hf, Except.map]
  · intro h2
    have hne : ¬ (listing.filter (fun file => str_endswith file ".yaml")).length = 0 := by
      omega
    have hgt : (listing.filter (fun file => str_endswith file ".yaml")).length > 1 := by
      omega
    simp [get_config_path, get_config_filename, hne, hgt, Except.map]

theorem C5_config_resolution_witness :
    get_config_path pipeline_v1 "/c" ["m.pt"] =
      Except.ok "/root/hay_say/so_vits_svc_5_v1/configs/base.yaml" ∧
    get_config_path pipeline_v1 "/c" ["a.yaml", "m.pt"] = Except.ok "/c/a.yaml" ∧
    get_config_path pipeline_v1 "/c" ["a.yaml", "b.yaml"] = Except.error
      "Too many config files found! Expected only one file with extension \".yaml\" in /c" :=
  ⟨(C5_config_resolution 1 pipeline_v1 "/c" ["m.pt"] init_one).1 (by decide),
   (C5_config_resolution 1 pipeline_v1 "/c" ["a.yaml", "m.pt"] init_one).2.1
     "a.yaml" (by decide),
   (C5_config_resolution 1 pipeline_v1 "/c" ["a.yaml", "b.yaml"] init_one).2.2 (by decide)⟩

/-- C6: checkpoint resolution requires exactly one file with the checkpoint
suffix in the character directory, and speaker-embedding resolution exactly
one file with its suffix in the singer subdirectory listing: zero matches
raise the missing-asset message and two or more the ambiguity message, each
message naming the searched directory and the expected suffix; with two
checkpoint files present, version determination (and hence pipeline
creation) raises during resolution with zero subprocesses launched. -/
theorem C6_asset_resolution (character_dir singer_dir : String)
    (listing singer_listing : List String) (ckpt : Checkpoint) :
    ((listing.filter (fun file => str_endswith file ".pt")).length = 0 →
      get_checkpoint_filename character_dir listing = Except.error
        ("Checkpoint file was not found! Expected a file with extension \".pt\" in "
          ++ character_dir)) ∧
    (2 ≤ (listing.filter (fun file => str_endswith file ".pt")).length →
      get_checkpoint_filename character_dir listing = Except.error
        ("Too many checkpoint files found! Expected only one file with extension \".pt\" in "
          ++ character_dir)) ∧
    ((singer_listing.filter (fun file => str_endswith file ".spk.npy")).length = 0 →
      get_spk_filename singer_dir singer_listing = Except.error
        ("Speaker file was not found! Expected a file with extension \".spk.npy\" in "
          ++ singer_dir)) ∧
    (2 ≤ (singer_listing.filter (fun file => str_endswith file ".spk.npy")).length →
      get_spk_filename singer_dir singer_listing = Except.error
        ("Too many speaker files found! Expected only one file with extension \".spk.npy\" in "
          ++ singer_dir)) ∧
    (2 ≤ (listing.filter (fun file => str_endswith file ".pt")).length →
      (determine_version character_dir listing ckpt).2 = 0 ∧
      (create_from_character character_dir listing ckpt).2 = 0) := by
  refine ⟨?_, ?_, ?_, ?_, ?_⟩
  · intro h0
    simp [get_checkpoint_filename, h0]
  · intro h2
    have hne : ¬ (listing.filter (fun file => str_endswith file ".pt")).length = 0 := by
      omega
    have hgt : (listing.filter (fun file => str_endswith file ".pt")).length > 1 := by
      omega
    simp [get_checkpoint_filename, hne, hgt]
  · intro h0
    simp [get_spk_filename, h0]
  · intro h2
    have hne :
        ¬ (singer_listing.filter (fun file => str_endswith file ".spk.npy")).length = 0 := by
      omega
    have hgt :
        (singer_listing.filter (fun file => str_endswith file ".spk.npy")).length > 1 := by
      omega
    simp [get_spk_filename, hne, hgt]
  · intro h2
    have hne : ¬ (listing.filter (fun file => str_endswith file ".pt")).length = 0 := by
      omega
    have hgt : (listing.filter (fun file => str_endswith file ".pt")).length > 1 := by
      omega
    have hk : get_checkpoint_path character_dir listing = Except.error
        ("Too many checkpoint files found! Expected only one file with extension \".pt\" in "
          ++ character_dir) := by
      simp [get_checkpoint_path, get_checkpoint_filename, hne, hgt, Except.map]
    constructor
    · simp [determine_version, hk]
    · simp [create_from_character, determine_version, hk]

theorem C6_asset_resolution_witness :
    get_checkpoint_filename "/c" ["a.yaml"] = Except.error
      "Checkpoint file was not found! Expected a file with extension \".pt\" in /c" ∧
    get_checkpoint_filename "/c" ["m.pt", "n.pt"] = Except.error
      "Too many checkpoint files found! Expected only one file with extension \".pt\" in /c" ∧
    get_spk_filename "/c/singer" [] = Except.error
      "Speaker file was not found! Expected a file with extension \".spk.npy\" in /c/singer" ∧
    get_spk_filename "/c/singer" ["a.spk.npy", "b.spk.npy"] = Except.error
      "Too many speaker files found! Expected only one file with extension \".spk.npy\" in /c/singer" ∧
    (determine_version "/c" ["m.pt", "n.pt"] (Checkpoint.mk [192, 1024, 5])).2 = 0 ∧
    (create_from_character "/c" ["m.pt", "n.pt"] (Checkpoint.mk [192, 1024, 5])).2 = 0 :=
  ⟨(C6_asset_resolution "/c" "/c/singer" ["a.yaml"] [] (Checkpoint.mk [192, 1024, 5])).1
     (by decide),
   (C6_asset_resolution "/c" "/c/singer" ["m.pt", "n.pt"] []
     (Checkpoint.mk [192, 1024, 5])).2.1 (by decide),
   (C6_asset_resolution "/c" "/c/singer" ["a.yaml"] [] (Checkpoint.mk [192, 1024, 5])).2.2.1
     (by decide),
   (C6_asset_resolution "/c" "/c/singer" ["a.yaml"] ["a.spk.npy", "b.spk.npy"]
     (Checkpoint.mk [192, 1024, 5])).2.2.2.1 (by decide),
   ((C6_asset_resolution "/c" "/c/singer" ["m.pt", "n.pt"] []
     (Checkpoint.mk [192, 1024, 5])).2.2.2.2 (by decide)).1,
   ((C6_asset_resolution "/c" "/c/singer" ["m.pt", "n.pt"] []
     (Checkpoint.mk [192, 1024, 5])).2.2.2.2 (by decide)).2⟩

/-- C7: every exit path of a generate request leaves the run's scratch
directory empty (the TemporaryDirectory teardown runs on return and on
raise alike); a validation failure touches no files at all; and after any
pipeline run, successful or failed, neither variant's fixed output path is
present any more, the success path deleting it through hsc.clean_up and the
failure path through the diagnostics collaborator (both modelled from the
spec as removing the enumerated files). -/
theorem C7_cleanup_every_path (v : Int) (p : Svc5Pipeline) (character_dir : String)
    (listing singer_listing : List String) (content : String → String)
    (fs : List String) (inp : String) (shift : Int) (temp_dir : String)
    (h : Svc5Pipeline.init v = Except.ok p) :
    (∀ req, (generate p character_dir listing singer_listing content fs inp shift
      temp_dir req).scratch = []) ∧
    (∀ tb, (generate p character_dir listing singer_listing content fs inp shift
      temp_dir (RequestBehavior.badInput tb)).fs = fs) ∧
    (∀ (ec : Stage → Int) (ciok : Bool),
      p.OUTPUT_PATH ∉ (generate p character_dir listing singer_listing content fs inp shift
        temp_dir (RequestBehavior.pipeline ec ciok)).fs ∧
      pipeline_v1.OUTPUT_PATH ∉ (generate p character_dir listing singer_listing content fs
        inp shift temp_dir (RequestBehavior.pipeline ec ciok)).fs ∧
      pipeline_v2.OUTPUT_PATH ∉ (generate p character_dir listing singer_listing content fs
        inp shift temp_dir (RequestBehavior.pipeline ec ciok)).fs) := by
  have hp : p = pipeline_v1 ∨ p = pipeline_v2 := by
    rcases (init_ok_iff v p).mp h with ⟨_, hp⟩ | ⟨_, hp⟩
    · exact Or.inl hp
    · exact Or.inr hp
  refine ⟨?_, ?_, ?_⟩
  · intro req
    cases req with
    | badInput tb => rfl
    | pipeline ec ciok =>
        simp only [generate]
        have hs := execute_pipeline_scratch_empty p character_dir listing singer_listing fs
          inp shift temp_dir ec ciok
        cases he : (execute_pipeline p character_dir listing singer_listing fs inp shift
            temp_dir ec ciok).err with
        | none => simpa [he] using hs
        | some e => simpa [he] using hs
  · intro tb; rfl
  · intro ec ciok
    have hg : (generate p character_dir listing singer_listing content fs inp shift
        temp_dir (RequestBehavior.pipeline ec ciok)).fs =
        clean_up (execute_pipeline p character_dir listing singer_listing fs inp shift
            temp_dir ec ciok).fs
          (get_temp_files (execute_pipeline p character_dir listing singer_listing fs inp
            shift temp_dir ec ciok).fs) := by
      simp only [generate]
      cases (execute_pipeline p character_dir listing singer_listing fs inp shift
          temp_dir ec ciok).err with
      | none => rfl
      | some e => rfl
    rw [hg]
    refine ⟨?_, ?_, ?_⟩
    · exact output_not_in_cleanup _ _ (hp.imp (fun h2 => by rw [h2]) (fun h2 => by rw [h2]))
    · exact output_not_in_cleanup _ _ (Or.inl rfl)
    · exact output_not_in_cleanup _ _ (Or.inr rfl)

theorem C7_cleanup_every_path_witness :
    (generate pipeline_v1 "/c" ["m.pt"] ["v.spk.npy"] (fun _ => "LOG")
      ["/c/sovits5.0.pth"] "clip" 0 "/tmp/run"
      (RequestBehavior.pipeline (fun _ => 0) true)).scratch = [] ∧
    (generate pipeline_v1 "/c" ["m.pt"] ["v.spk.npy"] (fun _ => "LOG")
      ["/c/sovits5.0.pth"] "clip" 0 "/tmp/run"
      (RequestBehavior.badInput "traceback")).fs = ["/c/sovits5.0.pth"] ∧
    pipeline_v1.OUTPUT_PATH ∉ (generate pipeline_v1 "/c" ["m.pt"] ["v.spk.npy"]
      (fun _ => "LOG") ["/c/sovits5.0.pth"] "clip" 0 "/tmp/run"
      (RequestBehavior.pipeline (fun _ => 0) true)).fs ∧
    pipeline_v2.OUTPUT_PATH ∉ (generate pipeline_v1 "/c" ["m.pt"] ["v.spk.npy"]
      (fun _ => "LOG") ["/c/sovits5.0.pth"] "clip" 0 "/tmp/run"
      (RequestBehavior.pipeline (fun _ => 0) true)).fs :=
  ⟨(C7_cleanup_every_path 1 pipeline_v1 "/c" ["m.pt"] ["v.spk.npy"] (fun _ => "LOG")
     ["/c/sovits5.0.pth"] "clip" 0 "/tmp/run" init_one).1
     (RequestBehavior.pipeline (fun _ => 0) true),
   (C7_cleanup_every_path 1 pipeline_v1 "/c" ["m.pt"] ["v.spk.npy"] (fun _ => "LOG")
     ["/c/sovits5.0.pth"] "clip" 0 "/tmp/run" init_one).2.1 "traceback",
   ((C7_cleanup_every_path 1 pipeline_v1 "/c" ["m.pt"] ["v.spk.npy"] (fun _ => "LOG")
     ["/c/sovits5.0.pth"] "clip" 0 "/tmp/run" init_one).2.2 (fun _ => 0) true).2.1,
   ((C7_cleanup_every_path 1 pipeline_v1 "/c" ["m.pt"] ["v.spk.npy"] (fun _ => "LOG")
     ["/c/sovits5.0.pth"] "clip" 0 "/tmp/run" init_one).2.2 (fun _ => 0) true).2.2⟩

/-- C8 counterexample: the spec says the diagnostics collector enumerates
every file currently present in the run's scratch directory as well as the
fixed output paths, but get_temp_files consults only the per-variant
OUTPUT_PATH constants: on a filesystem holding exactly one scratch file,
that existing file is not in the enumeration (which is empty). -/
theorem C8_counterexample :
    "/tmp/svc5_scratch/clip.flac" ∈ ["/tmp/svc5_scratch/clip.flac"] ∧
    "/tmp/svc5_scratch/clip.flac" ∉ get_temp_files ["/tmp/svc5_scratch/clip.flac"] := by
  constructor
  · simp
  · decide

/-- C8 (amended): on failure the diagnostics collector enumerates only the
fixed final-output path of each known model variant, filtering out paths
that are not existing files without error (files of the run's scratch
directory are not enumerated; the scratch teardown has already removed
them), and the textual content of each enumerated file is captured into the
error report the collaborator builds. -/
theorem C8_enumerates_fixed_outputs (fs : List String) (content : String → String) :
    get_temp_files fs =
      [pipeline_v1.OUTPUT_PATH, pipeline_v2.OUTPUT_PATH].filter (fun f => fs.contains f) ∧
    (∀ f, f ∈ get_temp_files fs → f ∈ fs) ∧
    (∀ f, f ∈ get_temp_files fs →
      content f ∈ construct_full_error_message content (get_temp_files fs)) := by
  refine ⟨get_temp_files_spec fs, ?_, ?_⟩
  · intro f hf
    rw [get_temp_files_spec, List.mem_filter] at hf
    simpa using hf.2
  · intro f hf
    unfold construct_full_error_message
    exact List.mem_map_of_mem content hf

theorem C8_enumerates_fixed_outputs_witness :
    get_temp_files ["/root/hay_say/so_vits_svc_5_v1/svc_out.wav", "/x"] =
      ["/root/hay_say/so_vits_svc_5_v1/svc_out.wav"] ∧
    "/root/hay_say/so_vits_svc_5_v1/svc_out.wav" ∈
      ["/root/hay_say/so_vits_svc_5_v1/svc_out.wav", "/x"] ∧
    "LOG" ∈ construct_full_error_message (fun _ => "LOG")
      (get_temp_files ["/root/hay_say/so_vits_svc_5_v1/svc_out.wav", "/x"]) :=
  ⟨(C8_enumerates_fixed_outputs ["/root/hay_say/so_vits_svc_5_v1/svc_out.wav", "/x"]
     (fun _ => "LOG")).1,
   (C8_enumerates_fixed_outputs ["/root/hay_say/so_vits_svc_5_v1/svc_out.wav", "/x"]
     (fun _ => "LOG")).2.1 "/root/hay_say/so_vits_svc_5_v1/svc_out.wav" (by decide),
   (C8_enumerates_fixed_outputs ["/root/hay_say/so_vits_svc_5_v1/svc_out.wav", "/x"]
     (fun _ => "LOG")).2.2 "/root/hay_say/so_vits_svc_5_v1/svc_out.wav" (by decide)⟩

/-- C9: every generate response is a JSON object with exactly the one field
message, whose value is the base64 encoding of the UTF-8 bytes of the
textual report; a schema violation yields status 400 with the encoded
traceback, a completed pipeline yields status 200 with the empty report
(whose encoding is the empty string), and an internal failure yields status
500 with the encoded error report. -/
theorem C9_response_shape (p : Svc5Pipeline) (character_dir : String)
    (listing singer_listing : List String) (content : String → String)
    (fs : List String) (inp : String) (shift : Int) (temp_dir : String) :
    (∀ req, (generate p character_dir listing singer_listing content fs inp shift
      temp_dir req).response.map Prod.fst = ["message"]) ∧
    (∀ tb, (generate p character_dir listing singer_listing content fs inp shift
        temp_dir (RequestBehavior.badInput tb)).code = 400 ∧
      (generate p character_dir listing singer_listing content fs inp shift
        temp_dir (RequestBehavior.badInput tb)).response =
        [("message", b64encode (utf8_encode tb))]) ∧
    (∀ (ec : Stage → Int) (ciok : Bool),
      ((execute_pipeline p character_dir listing singer_listing fs inp shift temp_dir
          ec ciok).err = none →
        (generate p character_dir listing singer_listing content fs inp shift
          temp_dir (RequestBehavior.pipeline ec ciok)).code = 200 ∧
        (generate p character_dir listing singer_listing content fs inp shift
          temp_dir (RequestBehavior.pipeline ec ciok)).response = [("message", "")]) ∧
      ((execute_pipeline p character_dir listing singer_listing fs inp shift temp_dir
          ec ciok).err ≠ none →
        (generate p character_dir listing singer_listing content fs inp shift
          temp_dir (RequestBehavior.pipeline ec ciok)).code = 500 ∧
        (generate p character_dir listing singer_listing content fs inp shift
          temp_dir (RequestBehavior.pipeline ec ciok)).response =
          [("message", b64encode (utf8_encode (String.intercalate "\n"
            (generate p character_dir listing singer_listing content fs inp shift
              temp_dir (RequestBehavior.pipeline ec ciok)).captured)))])) := by
  refine ⟨?_, ?_, ?_⟩
  · intro req
    cases req with
    | badInput tb => rfl
    | pipeline ec ciok =>
        simp only [generate]
        cases (execute_pipeline p character_dir listing singer_listing fs inp shift
            temp_dir ec ciok).err with
        | none => rfl
        | some e => rfl
  · intro tb; exact ⟨rfl, rfl⟩
  · intro ec ciok
    constructor
    · intro hnone
      simp only [generate, hnone]
      exact ⟨trivial, rfl⟩
    · intro hne
      cases he : (execute_pipeline p character_dir listing singer_listing fs inp shift
          temp_dir ec ciok).err with
      | none => exact absurd he hne
      | some e =>
          simp only [generate, he]
          exact ⟨trivial, trivial⟩

theorem C9_response_shape_witness :
    (generate pipeline_v1 "/c" ["m.pt"] ["v.spk.npy"] (fun _ => "LOG")
      ["/c/sovits5.0.pth"] "clip" 0 "/tmp/run"
      (RequestBehavior.badInput "oops")).code = 400 ∧
    (generate pipeline_v1 "/c" ["m.pt"] ["v.spk.npy"] (fun _ => "LOG")
      ["/c/sovits5.0.pth"] "clip" 0 "/tmp/run"
      (RequestBehavior.badInput "oops")).response =
      [("message", b64encode (utf8_encode "oops"))] ∧
    (generate pipeline_v1 "/c" ["m.pt"] ["v.spk.npy"] (fun _ => "LOG")
      ["/c/sovits5.0.pth"] "clip" 0 "/tmp/run"
      (RequestBehavior.pipeline (fun _ => 0) true)).code = 200 ∧
    (generate pipeline_v1 "/c" ["m.pt"] ["v.spk.npy"] (fun _ => "LOG")
      ["/c/sovits5.0.pth"] "clip" 0 "/tmp/run"
      (RequestBehavior.pipeline (fun _ => 0) true)).response = [("message", "")] ∧
    (generate pipeline_v1 "/c" ["m.pt"] ["v.spk.npy"] (fun _ => "LOG")
      [] "clip" 0 "/tmp/run"
      (RequestBehavior.pipeline (fun s => if s = Stage.synthesis then 1 else 0)
        true)).code = 500 :=
  ⟨((C9_response_shape pipeline_v1 "/c" ["m.pt"] ["v.spk.npy"] (fun _ => "LOG")
     ["/c/sovits5.0.pth"] "clip" 0 "/tmp/run").2.1 "oops").1,
   ((C9_response_shape pipeline_v1 "/c" ["m.pt"] ["v.spk.npy"] (fun _ => "LOG")
     ["/c/sovits5.0.pth"] "clip" 0 "/tmp/run").2.1 "oops").2,
   (((C9_response_shape pipeline_v1 "/c" ["m.pt"] ["v.spk.npy"] (fun _ => "LOG")
     ["/c/sovits5.0.pth"] "clip" 0 "/tmp/run").2.2 (fun _ => 0) true).1 rfl).1,
   (((C9_response_shape pipeline_v1 "/c" ["m.pt"] ["v.spk.npy"] (fun _ => "LOG")
     ["/c/sovits5.0.pth"] "clip" 0 "/tmp/run").2.2 (fun _ => 0) true).1 rfl).2,
   (((C9_response_shape pipeline_v1 "/c" ["m.pt"] ["v.spk.npy"] (fun _ => "LOG")
     [] "clip" 0 "/tmp/run").2.2 (fun s => if s = Stage.synthesis then 1 else 0) true).2
     (by decide)).1⟩

/-- C10: whenever the checkpoint deserializes and contains the classifying
tensor, the detector's emitted and parsed version is 1 or 2 (selected by
the second dimension), both keys of VERSION_CONSTANTS, so the factory
create_from_character always returns a pipeline object and the constructor
branch raising on an unknown version is never reached. -/
theorem C10_factory_never_unknown_version (character_dir : String)
    (listing : List String) (ckpt : Checkpoint)
    (hres : (listing.filter (fun file => str_endswith file ".pt")).length = 1)
    (hdim : 1 < ckpt.enc_p_pre_weight_shape.length) :
    (determine_version character_dir listing ckpt).1 =
      Except.ok (if ckpt.enc_p_pre_weight_shape.getD 1 0 = 1024 then 1 else 2) ∧
    (create_from_character character_dir listing ckpt).1 =
      Except.ok (if ckpt.enc_p_pre_weight_shape.getD 1 0 = 1024 then pipeline_v1
        else pipeline_v2) := by
  have hck : get_checkpoint_path character_dir listing =
      Except.ok (os_path_join character_dir
        ((listing.filter (fun file => str_endswith file ".pt")).headD "")) := by
    simp [get_checkpoint_path, get_checkpoint_filename, hres, Except.map]
  by_cases h1024 : ckpt.enc_p_pre_weight_shape.getD 1 0 = 1024
  · have hs : determinator_stdout ckpt = "1" := by
      unfold determinator_stdout; rw [if_pos h1024]
    rw [if_pos h1024, if_pos h1024]
    constructor
    · simp only [determine_version, hck, hs]; rfl
    · simp only [create_from_character, determine_version, hck, hs]; rfl
  · have hs : determinator_stdout ckpt = "2" := by
      unfold determinator_stdout; rw [if_neg h1024]
    rw [if_neg h1024, if_neg h1024]
    constructor
    · simp only [determine_version, hck, hs]; rfl
    · simp only [create_from_character, determine_version, hck, hs]; rfl

theorem C10_factory_never_unknown_version_witness :
    (determine_version "/c" ["m.pt"] (Checkpoint.mk [192, 1280, 5])).1 = Except.ok 2 ∧
    (create_from_character "/c" ["m.pt"] (Checkpoint.mk [192, 1280, 5])).1 =
      Except.ok pipeline_v2 :=
  ⟨(C10_factory_never_unknown_version "/c" ["m.pt"] (Checkpoint.mk [192, 1280, 5])
     (by decide) (by decide)).1,
   (C10_factory_never_unknown_version "/c" ["m.pt"] (Checkpoint.mk [192, 1280, 5])
     (by decide) (by decide)).2⟩

end Svc5
